import Mathlib

/-!
Verification of the doxygen comment generator against its specification.

The Python sources (header_generator.py, cpp_generator.py, test_analyzer.py,
directory_processor.py) are shallowly embedded below: lines are `String`s
(trailing newline included, as produced by `readlines`), the scanner loops
become fuel-based recursions (`fuel = lines.length + 1` dominates every loop,
since the line index strictly increases each iteration), and each regular
expression used by the code is hand-translated into a character-level matcher
with the same (greedy/lazy, backtracking) semantics on the inputs involved.
Braces inside string literals are written with the escapes \x7b and \x7d.
-/

/-- Python `str` whitespace set used by strip()/split()/`\s`. -/
def pyWs (c : Char) : Bool :=
  c = ' ' || c = '\t' || c = '\n' || c = '\r' || c = '\x0b' || c = '\x0c'

/-- Python regex `\w` (ASCII input). -/
def wordChar (c : Char) : Bool := c.isAlphanum || c = '_'

/-- Python `s.strip()`. -/
def pyStrip (s : String) : String :=
  ⟨((s.data.dropWhile pyWs).reverse.dropWhile pyWs).reverse⟩

/-- Python `s.rstrip()`. -/
def pyRstrip (s : String) : String :=
  ⟨(s.data.reverse.dropWhile pyWs).reverse⟩

/-- Python `line.rstrip('\n')`. -/
def pyRstripNL (s : String) : String :=
  ⟨(s.data.reverse.dropWhile (· = '\n')).reverse⟩

/-- Match a literal character sequence; return the rest on success. -/
def litAt : List Char → List Char → Option (List Char)
  | [], cs => some cs
  | _ :: _, [] => none
  | p :: ps, c :: cs => if p = c then litAt ps cs else none

/-- Does `pat` occur as a contiguous substring of `cs`? (Python `pat in s`.) -/
def occursL (pat : List Char) : List Char → Bool
  | [] => (litAt pat []).isSome
  | c :: cs => (litAt pat (c :: cs)).isSome || occursL pat cs

/-- Python `pat in s` on strings. -/
def occursStr (pat s : String) : Bool := occursL pat.data s.data

/-- Python `s.count(c)` for a single character. -/
def countChar (c : Char) (s : String) : Nat := s.data.count c

/-- Python `s.split(sep)` for a one-character separator (keeps empty parts). -/
def splitL (sep : Char) : List Char → List (List Char)
  | [] => [[]]
  | c :: cs =>
    let r := splitL sep cs
    if c = sep then [] :: r
    else
      match r with
      | h :: t => (c :: h) :: t
      | [] => [[c]]

/-- Python `s.split(sep)` on strings. -/
def splitOnCharS (sep : Char) (s : String) : List String :=
  (splitL sep s.data).map (fun cs => ⟨cs⟩)

/-- Python `s.rsplit(' ', 1)`: split at the last literal space, if any. -/
def rsplitSpaceOnce (s : String) : List String :=
  let rev := s.data.reverse
  let tail := rev.takeWhile (· ≠ ' ')
  if tail.length = rev.length then [s]
  else [⟨(rev.drop (tail.length + 1)).reverse⟩, ⟨tail.reverse⟩]

/-- Does `cs` start with the literal `pat`? -/
def startsL (pat cs : List Char) : Bool := (litAt pat cs).isSome

/-- Python `s.startswith(pat)`. -/
def startsWithS (s pat : String) : Bool := startsL pat.data s.data

/-- Python `s.startswith(tuple)`. -/
def startsWithAny (s : String) (pats : List String) : Bool :=
  pats.any (fun p => startsWithS s p)

/-- Python `s.lower()` (ASCII). -/
def lowerS (s : String) : String := ⟨s.data.map Char.toLower⟩

/-- Python `s.capitalize()`: first char upper, the rest lowered. -/
def pyCapitalize (s : String) : String :=
  match s.data with
  | [] => ""
  | c :: cs => ⟨Char.toUpper c :: cs.map Char.toLower⟩

/-- `line[:len(line) - len(line.lstrip())]`: the leading-whitespace run. -/
def indentOf (line : String) : String := ⟨line.data.takeWhile pyWs⟩

/-- Python `s.lstrip('&*')`. -/
def lstripAmpStar (s : String) : String :=
  ⟨s.data.dropWhile (fun c => c = '&' || c = '*')⟩

/-- `s[:s.index(c)]`: the characters before the first occurrence of `c`. -/
def takeUntilChar (c : Char) (s : String) : String := ⟨s.data.takeWhile (· ≠ c)⟩

/-- Python `c in s` for a single character. -/
def containsCharS (c : Char) (s : String) : Bool := s.data.any (· = c)

/-- Python `''.join(ss)`. -/
def joinStr (ss : List String) : String := ss.foldl (· ++ ·) ""

/-- Python `'\n'.join(ss)`. -/
def joinNL : List String → String
  | [] => ""
  | [s] => s
  | s :: rest => s ++ "\n" ++ joinNL rest

/-- Split a text into lines the way `readlines` does (each keeps its `\n`). -/
def splitLinesAux (acc : List Char) : List Char → List String
  | [] => if acc.isEmpty then [] else [⟨acc.reverse⟩]
  | c :: rest =>
    if c = '\n' then ⟨(c :: acc).reverse⟩ :: splitLinesAux [] rest
    else splitLinesAux (c :: acc) rest

/-- Re-read an output list the way a second pass would (`writelines` then
`readlines`). -/
def relines (out : List String) : List String := splitLinesAux [] (joinStr out).data

/-- Regex `\s*`: greedily drop whitespace. -/
def dropWs (cs : List Char) : List Char := cs.dropWhile pyWs

/-- Regex `\s+`: require at least one whitespace char, then drop the run. -/
def wsPlus (cs : List Char) : Option (List Char) :=
  match cs with
  | c :: rest => if pyWs c then some (dropWs rest) else none
  | [] => none

/-- Maximal `\w+` run (possibly empty) and the rest. -/
def wordRun (cs : List Char) : List Char × List Char :=
  (cs.takeWhile wordChar, cs.dropWhile wordChar)

/-- Character class `[\w:<>]` of the function-signature regex. -/
def tokChar (c : Char) : Bool := wordChar c || c = ':' || c = '<' || c = '>'

/-- Maximal `[\w:<>]+` run (possibly empty) and the rest. -/
def tokRun (cs : List Char) : List Char × List Char :=
  (cs.takeWhile tokChar, cs.dropWhile tokChar)

/-- First `some` in a list of alternatives (regex alternation order). -/
def firstSome {α : Type} : List (Option α) → Option α
  | [] => none
  | o :: rest =>
    match o with
    | some a => some a
    | none => firstSome rest

/-- `lines[i:end_idx+1]`. -/
def sliceLines (lines : List String) (i endIdx : Nat) : List String :=
  (lines.drop i).take (endIdx + 1 - i)

/-- `(first, rest-after)` at the first occurrence of `c`, if any.  Implements
the lazy group of `\((.*?)\)`-style patterns. -/
def splitAtFirst (c : Char) : List Char → Option (List Char × List Char)
  | [] => none
  | x :: r =>
    if x = c then some ([], r)
    else (splitAtFirst c r).map (fun p => (x :: p.1, p.2))

/-!
## TestCaseAnalyzer (test_analyzer.py)
-/

/-- `TestInfo` dataclass of test_analyzer.py. -/
structure TestInfo where
  framework : String
  testName : String
  testSuite : Option String := none
  testType : String := "TEST"
  fixtureClass : Option String := none
  assertions : List String := []
  description : Option String := none
deriving DecidableEq, Repr

/-- Names whose two-identifier-argument regexes form `GTEST_PATTERNS`. -/
def gtestNames : List String :=
  ["TEST", "TEST_F", "TEST_P", "TYPED_TEST", "TYPED_TEST_P"]

/-- Anchored match of `NAME\s*\(\s*(\w+)\s*,\s*(\w+)\s*\)` at the head. -/
def args2At (nm : String) (cs : List Char) : Option (String × String) :=
  match litAt nm.data cs with
  | none => none
  | some r =>
    match dropWs r with
    | '(' :: r₂ =>
      let r₃ := dropWs r₂
      let (w₁, r₄) := wordRun r₃
      if w₁.isEmpty then none
      else
        match dropWs r₄ with
        | ',' :: r₅ =>
          let r₆ := dropWs r₅
          let (w₂, r₇) := wordRun r₆
          if w₂.isEmpty then none
          else
            match dropWs r₇ with
            | ')' :: _ => some (⟨w₁⟩, ⟨w₂⟩)
            | _ => none
        | _ => none
    | _ => none

/-- `re.search` of the two-argument macro pattern: try every start position. -/
def searchArgs2 (nm : String) : List Char → Option (String × String)
  | [] => none
  | c :: rest =>
    match args2At nm (c :: rest) with
    | some g => some g
    | none => searchArgs2 nm rest

/-- Anchored match of `NAME\s*\(\s*(\w+)\s*\)` at the head. -/
def args1At (nm : String) (cs : List Char) : Option String :=
  match litAt nm.data cs with
  | none => none
  | some r =>
    match dropWs r with
    | '(' :: r₂ =>
      let r₃ := dropWs r₂
      let (w₁, r₄) := wordRun r₃
      if w₁.isEmpty then none
      else
        match dropWs r₄ with
        | ')' :: _ => some ⟨w₁⟩
        | _ => none
    | _ => none

/-- `re.search` of the one-argument macro pattern. -/
def searchArgs1 (nm : String) : List Char → Option String
  | [] => none
  | c :: rest =>
    match args1At nm (c :: rest) with
    | some g => some g
    | none => searchArgs1 nm rest

/-- Anchored match of `NAME\s*\(\s*"([^"]+)"(?:\s*,\s*"([^"]*)")?\s*\)`
(the Catch2 two-string form; the second group is optional). -/
def catchStrAt (nm : String) (cs : List Char) : Option (String × Option String) :=
  match litAt nm.data cs with
  | none => none
  | some r =>
    match dropWs r with
    | '(' :: r₂ =>
      match dropWs r₂ with
      | '"' :: r₃ =>
        let g₁ := r₃.takeWhile (· ≠ '"')
        if g₁.isEmpty then none
        else
          match r₃.drop g₁.length with
          | '"' :: r₄ =>
            match dropWs r₄ with
            | ',' :: r₅ =>
              match dropWs r₅ with
              | '"' :: r₆ =>
                let g₂ := r₆.takeWhile (· ≠ '"')
                match r₆.drop g₂.length with
                | '"' :: r₇ =>
                  match dropWs r₇ with
                  | ')' :: _ => some (⟨g₁⟩, some ⟨g₂⟩)
                  | _ => none
                | _ => none
              | _ => none
            | ')' :: _ => some (⟨g₁⟩, none)
            | _ => none
          | _ => none
      | _ => none
    | _ => none

/-- `re.search` of the Catch2 two-string macro pattern. -/
def searchCatchStr (nm : String) : List Char → Option (String × Option String)
  | [] => none
  | c :: rest =>
    match catchStrAt nm (c :: rest) with
    | some g => some g
    | none => searchCatchStr nm rest

/-- Anchored match of `NAME\s*\(\s*"([^"]+)"\s*\)` (the doctest single-string
form). -/
def strArg1At (nm : String) (cs : List Char) : Option String :=
  match litAt nm.data cs with
  | none => none
  | some r =>
    match dropWs r with
    | '(' :: r₂ =>
      match dropWs r₂ with
      | '"' :: r₃ =>
        let g₁ := r₃.takeWhile (· ≠ '"')
        if g₁.isEmpty then none
        else
          match r₃.drop g₁.length with
          | '"' :: r₄ =>
            match dropWs r₄ with
            | ')' :: _ => some ⟨g₁⟩
            | _ => none
          | _ => none
      | _ => none
    | _ => none

/-- `re.search` of the single-string macro pattern. -/
def searchStrArg1 (nm : String) : List Char → Option String
  | [] => none
  | c :: rest =>
    match strArg1At nm (c :: rest) with
    | some g => some g
    | none => searchStrArg1 nm rest

/-- Anchored match of `TEMPLATE_TEST_CASE\s*\(\s*"([^"]+)"` (no closing paren
required by the pattern). -/
def catchTemplateAt (cs : List Char) : Option String :=
  match litAt "TEMPLATE_TEST_CASE".data cs with
  | none => none
  | some r =>
    match dropWs r with
    | '(' :: r₂ =>
      match dropWs r₂ with
      | '"' :: r₃ =>
        let g₁ := r₃.takeWhile (· ≠ '"')
        if g₁.isEmpty then none
        else
          match r₃.drop g₁.length with
          | '"' :: _ => some ⟨g₁⟩
          | _ => none
      | _ => none
    | _ => none

/-- `re.search` of the TEMPLATE_TEST_CASE pattern. -/
def searchCatchTemplate : List Char → Option String
  | [] => none
  | c :: rest =>
    match catchTemplateAt (c :: rest) with
    | some g => some g
    | none => searchCatchTemplate rest

/-- `[<"]` character class. -/
def openQuote (c : Char) : Bool := c = '<' || c = '"'

/-- `[>"]` character class. -/
def closeQuote (c : Char) : Bool := c = '>' || c = '"'

/-- Anchored match of `#include\s*[<"]gtest/gtest\.h[>"]`. -/
def gtestIncludeAt (cs : List Char) : Bool :=
  match litAt "#include".data cs with
  | none => false
  | some r =>
    match dropWs r with
    | c :: r₂ =>
      if openQuote c then
        match litAt "gtest/gtest.h".data r₂ with
        | some (c₂ :: _) => closeQuote c₂
        | _ => false
      else false
    | [] => false

/-- Search the `.*\.hpp[>"]` tail of the catch include pattern: some run of
non-newline characters, then `.hpp`, then `>` or `"`. -/
def dotStarHpp : List Char → Bool
  | [] =>
    (match litAt ".hpp".data ([] : List Char) with
     | some (c₂ :: _) => closeQuote c₂
     | _ => false)
  | c :: rest =>
    (match litAt ".hpp".data (c :: rest) with
     | some (c₂ :: _) => closeQuote c₂
     | _ => false) ||
    (if c = '\n' then false else dotStarHpp rest)

/-- Anchored match of `#include\s*[<"]catch2?/catch.*\.hpp[>"]`. -/
def catchIncludeAt (cs : List Char) : Bool :=
  match litAt "#include".data cs with
  | none => false
  | some r =>
    match dropWs r with
    | c :: r₂ =>
      if openQuote c then
        match litAt "catch".data r₂ with
        | some r₃ =>
          let afterOpt :=
            match r₃ with
            | '2' :: r₄ => if dotStarTail r₄ then true else dotStarTail r₃
            | _ => dotStarTail r₃
          afterOpt
        | none => false
      else false
    | [] => false
where
  dotStarTail (r : List Char) : Bool :=
    match litAt "/catch".data r with
    | some r₂ => dotStarHpp r₂
    | none => false

/-- Anchored match of `#include\s*[<"]doctest/doctest\.h[>"]`. -/
def doctestIncludeAt (cs : List Char) : Bool :=
  match litAt "#include".data cs with
  | none => false
  | some r =>
    match dropWs r with
    | c :: r₂ =>
      if openQuote c then
        match litAt "doctest/doctest.h".data r₂ with
        | some (c₂ :: _) => closeQuote c₂
        | _ => false
      else false
    | [] => false

/-- Anchored match of `#include\s*[<"]boost/test/`. -/
def boostIncludeAt (cs : List Char) : Bool :=
  match litAt "#include".data cs with
  | none => false
  | some r =>
    match dropWs r with
    | c :: r₂ => openQuote c && (litAt "boost/test/".data r₂).isSome
    | [] => false

/-- `re.search` of an anchored boolean matcher at every position. -/
def searchBool (p : List Char → Bool) : List Char → Bool
  | [] => p []
  | c :: rest => p (c :: rest) || searchBool p rest

/-- `detect_test_framework` of test_analyzer.py: include signatures first,
then macro-name signatures (gtest, catch2, boost); no cppunit branch exists. -/
def detectTestFramework (lines : List String) : Option String :=
  let content := joinNL lines
  let cs := content.data
  if searchBool gtestIncludeAt cs then some "gtest"
  else if searchBool catchIncludeAt cs then some "catch2"
  else if searchBool doctestIncludeAt cs then some "doctest"
  else if searchBool boostIncludeAt cs then some "boost"
  else if gtestNames.any (fun nm => (searchArgs2 nm cs).isSome) then some "gtest"
  else if (searchCatchStr "TEST_CASE" cs).isSome ||
          (searchCatchStr "SCENARIO" cs).isSome ||
          (searchCatchTemplate cs).isSome then some "catch2"
  else if (searchArgs1 "BOOST_AUTO_TEST_CASE" cs).isSome ||
          (searchArgs2 "BOOST_FIXTURE_TEST_CASE" cs).isSome ||
          (searchArgs1 "BOOST_AUTO_TEST_SUITE" cs).isSome then some "boost"
  else none

/-- First (relative) index of a line containing `{`, as scanned by the
opening-brace loop of `_find_test_body`. -/
def findOpen : List String → Option Nat
  | [] => none
  | l :: rest =>
    if containsCharS '\x7b' l then some 0
    else (findOpen rest).map (· + 1)

/-- First (relative) index at which the running brace count returns to zero,
as scanned by the closing-brace loop of `_find_test_body`. -/
def findClose : List String → Int → Option Nat
  | [], _ => none
  | l :: rest, cnt =>
    let c := cnt + (countChar '\x7b' l : Int) - (countChar '\x7d' l : Int)
    if c = 0 then some 0
    else (findClose rest c).map (· + 1)

/-- `_find_test_body` of test_analyzer.py. -/
def findTestBody (lines : List String) (startIdx : Nat) : Nat × Nat :=
  match findOpen (lines.drop startIdx) with
  | none => (startIdx, startIdx)
  | some j =>
    let bodyStart := startIdx + j
    match findClose (lines.drop bodyStart) 0 with
    | some k => (bodyStart, bodyStart + k)
    | none => (bodyStart, bodyStart)

/-- `ASSERTION_PATTERNS` table of test_analyzer.py (all entries are literal
regexes, so `re.search` is substring containment). -/
def assertionPatterns (fw : String) : List String :=
  if fw = "gtest" then
    ["EXPECT_EQ", "EXPECT_NE", "EXPECT_LT", "EXPECT_LE", "EXPECT_GT", "EXPECT_GE",
     "EXPECT_TRUE", "EXPECT_FALSE", "EXPECT_STREQ", "EXPECT_STRNE",
     "EXPECT_THROW", "EXPECT_NO_THROW", "EXPECT_ANY_THROW",
     "ASSERT_EQ", "ASSERT_NE", "ASSERT_LT", "ASSERT_LE", "ASSERT_GT", "ASSERT_GE",
     "ASSERT_TRUE", "ASSERT_FALSE", "ASSERT_THROW", "ASSERT_NO_THROW"]
  else if fw = "catch2" then
    ["REQUIRE", "REQUIRE_FALSE", "REQUIRE_THROWS", "REQUIRE_NOTHROW",
     "CHECK", "CHECK_FALSE", "CHECK_THROWS", "CHECK_NOTHROW"]
  else if fw = "doctest" then
    ["REQUIRE", "REQUIRE_FALSE", "REQUIRE_THROWS", "REQUIRE_NOTHROW",
     "CHECK", "CHECK_FALSE", "CHECK_THROWS", "CHECK_NOTHROW"]
  else if fw = "boost" then
    ["BOOST_CHECK", "BOOST_REQUIRE", "BOOST_CHECK_EQUAL", "BOOST_REQUIRE_EQUAL",
     "BOOST_CHECK_THROW", "BOOST_REQUIRE_THROW", "BOOST_CHECK_NO_THROW"]
  else []

/-- `_extract_assertions` of test_analyzer.py: collect, in table order, every
pattern that occurs somewhere in the joined body text. -/
def extractAssertions (bodyLines : List String) (fw : String) : List String :=
  let bodyText := joinNL bodyLines
  (assertionPatterns fw).filter (fun p => occursStr p bodyText)

/-- `_parse_gtest_case`. -/
def parseGtestCase (lines : List String) (startIdx : Nat) (line : String) :
    Option (TestInfo × Nat) :=
  firstSome (gtestNames.map (fun nm =>
    match searchArgs2 nm line.data with
    | none => none
    | some (suite, nm₂) =>
      let testType := pyStrip ((splitOnCharS '(' line).headD "")
      let body := findTestBody lines startIdx
      let assertions := extractAssertions (sliceLines lines body.1 body.2) "gtest"
      some ({ framework := "gtest", testName := nm₂, testSuite := some suite,
              testType := testType,
              fixtureClass := if occursStr "TEST_F" testType then some suite else none,
              assertions := assertions }, body.2)))

/-- `_parse_catch_doctest_case`. -/
def parseCatchDoctestCase (lines : List String) (startIdx : Nat) (line : String)
    (fw : String) : Option (TestInfo × Nat) :=
  let hits : List (Option (String × Option String)) :=
    if fw = "catch2" then
      [searchCatchStr "TEST_CASE" line.data,
       searchCatchStr "SCENARIO" line.data,
       (searchCatchTemplate line.data).map (fun g => (g, none))]
    else
      [(searchStrArg1 "TEST_CASE" line.data).map (fun g => (g, none)),
       (searchStrArg1 "SCENARIO" line.data).map (fun g => (g, none)),
       (searchStrArg1 "TEST_SUITE" line.data).map (fun g => (g, none))]
  match firstSome hits with
  | none => none
  | some (nm, tags) =>
    let testType := pyStrip ((splitOnCharS '(' line).headD "")
    let body := findTestBody lines startIdx
    let assertions := extractAssertions (sliceLines lines body.1 body.2) fw
    some ({ framework := fw, testName := nm, testSuite := tags,
            testType := testType, assertions := assertions }, body.2)

/-- `_parse_boost_case`. -/
def parseBoostCase (lines : List String) (startIdx : Nat) (line : String) :
    Option (TestInfo × Nat) :=
  let hits : List (Option (String × Option String)) :=
    [(searchArgs1 "BOOST_AUTO_TEST_CASE" line.data).map (fun g => (g, none)),
     (searchArgs2 "BOOST_FIXTURE_TEST_CASE" line.data).map
       (fun g => (g.1, some g.2)),
     (searchArgs1 "BOOST_AUTO_TEST_SUITE" line.data).map (fun g => (g, none))]
  match firstSome hits with
  | none => none
  | some (nm, fixture) =>
    let testType := pyStrip ((splitOnCharS '(' line).headD "")
    let body := findTestBody lines startIdx
    let assertions := extractAssertions (sliceLines lines body.1 body.2) "boost"
    some ({ framework := "boost", testName := nm, testType := testType,
            fixtureClass := fixture, assertions := assertions }, body.2)

/-- `parse_test_case` of test_analyzer.py. -/
def parseTestCase (lines : List String) (startIdx : Nat) (fw : String) :
    Option (TestInfo × Nat) :=
  let line := pyStrip (lines.getD startIdx "")
  if fw = "gtest" then parseGtestCase lines startIdx line
  else if fw = "catch2" || fw = "doctest" then
    parseCatchDoctestCase lines startIdx line fw
  else if fw = "boost" then parseBoostCase lines startIdx line
  else none

/-- Insert a space before each uppercase letter (`re.sub(r'([A-Z])', r' \1')`). -/
def spaceBeforeUpper : List Char → List Char
  | [] => []
  | c :: rest =>
    if c.isUpper then ' ' :: c :: spaceBeforeUpper rest
    else c :: spaceBeforeUpper rest

/-- The ordered `test_patterns` prefix table of `generate_test_description`. -/
def testDescKvs : List (String × String) :=
  [("test", "Tests "), ("when", "When "), ("should", "Should "),
   ("verify", "Verifies "), ("check", "Checks "), ("ensure", "Ensures "),
   ("validate", "Validates ")]

/-- Case-insensitive `^word\s+` replacement: if the lowered string starts with
`patWord` followed by whitespace, replace that portion by `repl`. -/
def descSub (patWord repl s : String) : Option String :=
  if startsWithS (lowerS s) patWord then
    let r := s.data.drop patWord.length
    let ws := r.takeWhile pyWs
    if ws.isEmpty then none else some (repl ++ ⟨r.drop ws.length⟩)
  else none

/-- `generate_test_description` of test_analyzer.py. -/
def genTestDescription (ti : TestInfo) : String :=
  let testName := ti.testName
  let readable :=
    if containsCharS '_' testName then ⟨testName.data.map (fun c => if c = '_' then ' ' else c)⟩
    else pyStrip ⟨spaceBeforeUpper testName.data⟩
  match firstSome (testDescKvs.map (fun kv => descSub kv.1 kv.2 readable)) with
  | some d => d
  | none =>
    if startsWithAny (lowerS readable)
        ["test", "verify", "check", "ensure", "validate", "when", "should"] then
      readable
    else "Tests " ++ lowerS readable

/-- The ordered `assertion_coverage` table of `analyze_test_coverage`. -/
def coverageKvs : List (String × String) :=
  [("EXPECT_EQ", "equality comparison"), ("EXPECT_NE", "inequality comparison"),
   ("EXPECT_TRUE", "boolean true condition"),
   ("EXPECT_FALSE", "boolean false condition"),
   ("EXPECT_THROW", "exception throwing behavior"),
   ("EXPECT_NO_THROW", "no exception behavior"),
   ("REQUIRE", "required conditions"), ("CHECK", "checked conditions"),
   ("BOOST_CHECK_EQUAL", "equality validation")]

/-- Order-preserving deduplication (`list(dict.fromkeys(...))`). -/
def dedupKeepFirst (l : List String) : List String :=
  l.foldl (fun acc x => if x ∈ acc then acc else acc ++ [x]) []

/-- `analyze_test_coverage` of test_analyzer.py. -/
def analyzeTestCoverage (ti : TestInfo) : List String :=
  let coverage := ti.assertions.filterMap (fun a =>
    (firstSome (coverageKvs.map (fun kv =>
      if occursStr kv.1 a then some ("Covers " ++ kv.2) else none))))
  (dedupKeepFirst coverage).take 5

/-!
## HeaderDoxygenGenerator (header_generator.py): matchers
-/

/-- Mutable scanner context carried on the generator object
(`self.current_class`, `self.current_namespace`). -/
structure GenState where
  currentClass : Option String
  currentNamespace : Option String
deriving DecidableEq, Repr

/-- The fresh state built by `HeaderDoxygenGenerator.__init__`. -/
def initGenState : GenState := ⟨none, none⟩

/-- Structured result of `_match_function`. -/
structure FuncInfo where
  returnType : String
  name : String
  params : List (String × String)
  noexceptFlag : Bool
  throwSpec : Option (List String)
  staticFlag : Bool
  constFlag : Bool
  fullDecl : String
  isCtor : Bool
  isDtor : Bool
  isCopyCtor : Bool
  isMoveCtor : Bool
  isCopyAssign : Bool
  isMoveAssign : Bool
deriving DecidableEq, Repr

/-- Structured result of `_match_variable`. -/
structure VarInfo where
  type : String
  name : String
  staticFlag : Bool
  constexprFlag : Bool
  mutableFlag : Bool
  fullDecl : String
deriving DecidableEq, Repr

/-- The multi-line join loop of `_match_function` (`while end_idx < len(lines)
and ';' not in full_decl and '{' not in full_decl`). -/
def joinDeclLoop (fuel : Nat) (lines : List String) (full : String) (e : Nat) :
    String × Nat :=
  match fuel with
  | 0 => (full, e)
  | f + 1 =>
    if e < lines.length && !containsCharS ';' full && !containsCharS '\x7b' full then
      let e₂ := e + 1
      let full₂ :=
        if e₂ < lines.length then full ++ " " ++ pyStrip (lines.getD e₂ "")
        else full
      joinDeclLoop f lines full₂ e₂
    else (full, e)

/-- Join a declaration until `;` or `{` and truncate, as `_match_function`
does; `none` when neither terminator is found before end of file. -/
def joinDecl (line : String) (lines : List String) (startIdx : Nat) :
    Option (String × Nat) :=
  let r := joinDeclLoop (lines.length + 1) lines line startIdx
  if containsCharS '\x7b' r.1 then some (pyStrip (takeUntilChar '\x7b' r.1), r.2)
  else if containsCharS ';' r.1 then some (pyStrip (takeUntilChar ';' r.1), r.2)
  else none

/-- The `(?:(?:virtual|static|inline|explicit|constexpr)\s+)` alternatives:
every way one keyword-plus-whitespace step can consume, in alternation order. -/
def kwStep (cs : List Char) : List (List Char) :=
  ["virtual", "static", "inline", "explicit", "constexpr"].filterMap
    (fun kw => (litAt kw.data cs).bind wsPlus)

/-- Greedy, backtracking `(?:keyword\s+)*` loop: more iterations are tried
first, each alternative in order. -/
def kwLoop {α : Type} (fuel : Nat) (cs : List Char) (k : List Char → Option α) :
    Option α :=
  match fuel with
  | 0 => k cs
  | f + 1 =>
    match firstSome ((kwStep cs).map (fun cs₂ => kwLoop f cs₂ k)) with
    | some a => some a
    | none => k cs

/-- One `[\w:<>]+\s+` step (both pieces are maximal-munch, which is exact
because the character classes are disjoint). -/
def tokStep (cs : List Char) : Option (List Char) :=
  let r := tokRun cs
  if r.1.isEmpty then none else wsPlus r.2

/-- Greedy, backtracking `(?:[\w:<>]+\s+)*` loop. -/
def tokLoop {α : Type} (fuel : Nat) (cs : List Char) (k : List Char → Option α) :
    Option α :=
  match fuel with
  | 0 => k cs
  | f + 1 =>
    match tokStep cs with
    | some cs₂ =>
      match tokLoop f cs₂ k with
      | some a => some a
      | none => k cs
    | none => k cs

/-- After the name, match `\s*\(` and take the lazy `(.*?)` group up to the
first `)` (everything following it in the pattern is optional). -/
def finishName (nm : List Char) (r : List Char) : Option (String × String) :=
  match dropWs r with
  | '(' :: r₂ => (splitAtFirst ')' r₂).map (fun p => (⟨nm⟩, ⟨p.1⟩))
  | _ => none

/-- The `(~?\w+|operator=)\s*\((.*?)\)` portion of the function regex. -/
def nameTail (cs : List Char) : Option (String × String) :=
  let alt₁ : Option (String × String) :=
    match cs with
    | '~' :: r =>
      let w := wordRun r
      if w.1.isEmpty then none else finishName ('~' :: w.1) w.2
    | _ =>
      let w := wordRun cs
      if w.1.isEmpty then none else finishName w.1 w.2
  match alt₁ with
  | some a => some a
  | none =>
    match litAt "operator=".data cs with
    | some r => finishName "operator=".data r
    | none => none

/-- `re.match` of the main function-declaration regex of `_match_function`:
returns `(name, params)` groups. -/
def matchFunPattern (s : String) : Option (String × String) :=
  let cs := s.data
  kwLoop cs.length cs (fun cs₂ => tokLoop cs₂.length cs₂ nameTail)

/-- One capturing `[\w:<>]+\s+` step, returning the consumed text. -/
def tokCapStep (cs : List Char) : Option (List Char × List Char) :=
  let r := tokRun cs
  if r.1.isEmpty then none
  else
    let ws := r.2.takeWhile pyWs
    if ws.isEmpty then none else some (r.1 ++ ws, r.2.dropWhile pyWs)

/-- Greedy, backtracking capturing token loop for the return-type regex. -/
def tokLoopCap (fuel : Nat) (cs : List Char) (acc : List Char)
    (k : List Char → List Char → Option String) : Option String :=
  match fuel with
  | 0 => k cs acc
  | f + 1 =>
    match tokCapStep cs with
    | some st =>
      match tokLoopCap f st.2 (acc ++ st.1) k with
      | some a => some a
      | none => k cs acc
    | none => k cs acc

/-- `re.match` of the return-type regex
`(?:keyword\s+)*((?:[\w:<>]+\s+)*)NAME\s*\(` built in `_match_function`. -/
def retTypeOf (funcName : String) (fullDecl : String) : Option String :=
  let cs := fullDecl.data
  kwLoop cs.length cs (fun cs₂ =>
    tokLoopCap cs₂.length cs₂ [] (fun cs₃ acc =>
      match litAt funcName.data cs₃ with
      | some r =>
        match dropWs r with
        | '(' :: _ => some ⟨acc⟩
        | _ => none
      | none => none))

/-- `re.sub(r'\s*=\s*.*$', '', p)`: drop everything from the whitespace run
preceding the first `=` (no-op when there is no `=`). -/
def stripDefaultVal (p : String) : String :=
  match splitAtFirst '=' p.data with
  | none => p
  | some pr => ⟨(pr.1.reverse.dropWhile pyWs).reverse⟩

/-- The parameter-list parse of `_match_function`: split on commas, strip,
drop empties, strip default values, and take the last space-separated token as
the name. -/
def parseParams (params : String) : List (String × String) :=
  if params = "" then []
  else
    (((splitOnCharS ',' params).map pyStrip).filter (· ≠ "")).map (fun p =>
      let p₂ := stripDefaultVal p
      match rsplitSpaceOnce p₂ with
      | [t] => (t, "")
      | [t, n] => (t, n)
      | _ => ("", ""))

/-- `re.search(r'throw\s*\((.*?)\)', full_decl)`: first occurrence. -/
def searchThrow : List Char → Option String
  | [] => none
  | c :: rest =>
    match (litAt "throw".data (c :: rest)).bind (fun r =>
      match dropWs r with
      | '(' :: r₂ => (splitAtFirst ')' r₂).map (fun p => (⟨p.1⟩ : String))
      | _ => none) with
    | some g => some g
    | none => searchThrow rest

/-- Anchored `operator\s*=\s*\((const\s+C\s*&|C\s*&&)` check. -/
def assignShapeAt (c : String) (cs : List Char) : Bool :=
  match litAt "operator".data cs with
  | none => false
  | some r =>
    match dropWs r with
    | '=' :: r₂ =>
      match dropWs r₂ with
      | '(' :: r₃ =>
        (match (litAt "const".data r₃).bind wsPlus with
         | some r₄ =>
           (match litAt c.data r₄ with
            | some r₅ =>
              (match dropWs r₅ with
               | '&' :: _ => true
               | _ => false)
            | none => false)
         | none => false) ||
        (match litAt c.data r₃ with
         | some r₄ =>
           (match dropWs r₄ with
            | '&' :: '&' :: _ => true
            | _ => false)
         | none => false)
      | _ => false
    | _ => false

/-- `re.search` of the copy/move-assignment shape regex. -/
def assignShapeSearch (c : String) (s : String) : Bool :=
  searchBool (assignShapeAt c) s.data

/-- `re.match(r'const\s+C\s*&', param_type)`. -/
def copyParamMatch (c ptype : String) : Bool :=
  match (litAt "const".data ptype.data).bind wsPlus with
  | some r =>
    (match litAt c.data r with
     | some r₂ =>
       (match dropWs r₂ with
        | '&' :: _ => true
        | _ => false)
     | none => false)
  | none => false

/-- `re.match(C + r'\s*&&', param_type)`. -/
def moveParamMatch (c ptype : String) : Bool :=
  match litAt c.data ptype.data with
  | some r =>
    (match dropWs r with
     | '&' :: '&' :: _ => true
     | _ => false)
  | none => false

/-- `_match_function` of header_generator.py. -/
def matchFunction (cc : Option String) (line : String) (lines : List String)
    (startIdx : Nat) : Option (FuncInfo × Nat) :=
  match joinDecl line lines startIdx with
  | none => none
  | some (fullDecl, endIdx) =>
    let isAssignment := occursStr "operator=" fullDecl
    let assignmentType : Option String :=
      if isAssignment then
        match cc with
        | some c =>
          if assignShapeSearch c fullDecl then
            some (if occursStr "const" fullDecl then "copy" else "move")
          else none
        | none => none
      else none
    if isAssignment && assignmentType.isNone then none
    else
      match matchFunPattern fullDecl with
      | none => none
      | some (funcName, params) =>
        let returnType := ((retTypeOf funcName fullDecl).map pyStrip).getD ""
        let paramList := parseParams params
        let isCtor := match cc with | some c => funcName = c | none => false
        let isDtor := match cc with | some c => funcName = "~" ++ c | none => false
        let copyMove : Bool × Bool :=
          match cc with
          | some c =>
            if funcName = c && !paramList.isEmpty then
              if paramList.length = 1 && copyParamMatch c (paramList.headD ("", "")).1 then
                (true, false)
              else if paramList.length = 1 && moveParamMatch c (paramList.headD ("", "")).1 then
                (false, true)
              else (false, false)
            else (false, false)
          | none => (false, false)
        some ({ returnType := returnType,
                name := funcName,
                params := paramList,
                noexceptFlag := occursStr "noexcept" fullDecl,
                throwSpec := (searchThrow fullDecl.data).map (fun g =>
                  (((splitOnCharS ',' g).map pyStrip).filter (· ≠ ""))),
                staticFlag := occursStr "static" fullDecl,
                constFlag := occursStr "const" ((splitOnCharS ')' fullDecl).getLastD ""),
                fullDecl := fullDecl,
                isCtor := isCtor,
                isDtor := isDtor,
                isCopyCtor := copyMove.1,
                isMoveCtor := copyMove.2,
                isCopyAssign := isAssignment && assignmentType = some "copy",
                isMoveAssign := isAssignment && assignmentType = some "move" }, endIdx)

/-- The `skip_prefixes` tuple of `_match_variable`. -/
def skipLeads : List String :=
  ["class ", "struct ", "enum ", "namespace ", "using ", "typedef ",
   "template ", "friend ", "public:", "private:", "protected:"]

/-- The `(.+?)\s+([a-zA-Z_][a-zA-Z0-9_]*)\s*(?:=\s*.*)?$` core of the variable
regex: boundary attempt after a minimal (lazily grown) type group. -/
def varBoundary (accRev : List Char) (cs : List Char) : Option (String × String) :=
  let ws := cs.takeWhile pyWs
  if ws.isEmpty then none
  else
    match cs.drop ws.length with
    | c :: r =>
      if c.isAlpha || c = '_' then
        let w := wordRun r
        let rest := dropWs w.2
        if rest.isEmpty || (match rest with | '=' :: _ => true | _ => false) then
          some (⟨accRev.reverse⟩, ⟨c :: w.1⟩)
        else none
      else none
    | [] => none

/-- Lazy `(.+?)` scan: try the boundary after each added character (the `.`
class excludes newlines). -/
def varScan (accRev : List Char) : List Char → Option (String × String)
  | [] => none
  | c :: rest =>
    if c = '\n' then none
    else
      let acc₂ := c :: accRev
      match varBoundary acc₂ rest with
      | some a => some a
      | none => varScan acc₂ rest

/-- `re.match` of the variable-declaration regex of `_match_variable`:
optional storage keyword, optional `const`, then the lazy type/name split.
Returns the `(type, name)` groups. -/
def varPatternMatch (s : String) : Option (String × String) :=
  let cs := s.data
  let leadChoices : List (List Char) :=
    (["static", "constexpr", "mutable", "inline"].filterMap
      (fun kw => (litAt kw.data cs).bind wsPlus)) ++ [cs]
  firstSome (leadChoices.map (fun l =>
    let constChoices : List (List Char) :=
      match (litAt "const".data l).bind wsPlus with
      | some r => [r, l]
      | none => [l]
    firstSome (constChoices.map (varScan []))))

/-- The multi-line join loop of `_match_variable` (joins with `rstrip`/`strip`
until a `;` appears). -/
def varJoinLoop (fuel : Nat) (lines : List String) (full : String) (e : Nat) :
    String × Nat :=
  match fuel with
  | 0 => (full, e)
  | f + 1 =>
    if e < lines.length && !containsCharS ';' full then
      let e₂ := e + 1
      let full₂ :=
        if e₂ < lines.length then pyRstrip full ++ " " ++ pyStrip (lines.getD e₂ "")
        else full
      varJoinLoop f lines full₂ e₂
    else (full, e)

/-- `_match_variable` of header_generator.py. -/
def matchVariable (line : String) (lines : List String) (startIdx : Nat) :
    Option (VarInfo × Nat) :=
  let anyS := containsCharS '\x7b' line || containsCharS '\x7d' line ||
              containsCharS '(' line || containsCharS ')' line ||
              containsCharS ';' line
  if anyS && !(containsCharS ';' line && !containsCharS '=' line) then none
  else if startsWithAny (pyStrip line) skipLeads then none
  else
    let r := varJoinLoop (lines.length + 1) lines line startIdx
    if !containsCharS ';' r.1 then none
    else
      let fullDecl := pyStrip (takeUntilChar ';' r.1)
      if startsWithAny fullDecl skipLeads then none
      else
        match varPatternMatch fullDecl with
        | none => none
        | some (t, n) =>
          some ({ type := pyStrip t, name := n,
                  staticFlag := occursStr "static" fullDecl,
                  constexprFlag := occursStr "constexpr" fullDecl,
                  mutableFlag := occursStr "mutable" fullDecl,
                  fullDecl := fullDecl }, r.2)

/-!
## HeaderDoxygenGenerator: comment synthesizers
-/

/-- Keywords removed from return types by
`re.sub(r'\b(?:virtual|...|final)\b', '', ret_type)`. -/
def rmKwList : List String :=
  ["virtual", "inline", "explicit", "constexpr", "static", "friend", "mutable",
   "volatile", "register", "extern", "thread_local", "auto", "typename",
   "override", "final"]

/-- At the head of `cs` (already known to sit at a left word boundary), try
each keyword in alternation order, also requiring a right word boundary. -/
def kwHereRm (cs : List Char) : Option (List Char) :=
  firstSome (rmKwList.map (fun kw =>
    match litAt kw.data cs with
    | some [] => some []
    | some (c :: r) => if wordChar c then none else some (c :: r)
    | none => none))

/-- Left-to-right scan of the keyword-removal `re.sub`; `prev` records whether
the previous original character was a word character (for `\b`). -/
def removeKws (fuel : Nat) (prev : Bool) (cs : List Char) : List Char :=
  match fuel with
  | 0 => cs
  | f + 1 =>
    match cs with
    | [] => []
    | c :: rest =>
      if prev then c :: removeKws f (wordChar c) rest
      else
        match kwHereRm (c :: rest) with
        | some r => removeKws f true r
        | none => c :: removeKws f (wordChar c) rest

/-- `re.sub(r'\s+', ' ', s)` scan (`prevWs` tracks a pending collapsed run). -/
def collapseWsAux (prevWs : Bool) : List Char → List Char
  | [] => []
  | c :: rest =>
    if pyWs c then
      if prevWs then collapseWsAux true rest
      else ' ' :: collapseWsAux true rest
    else c :: collapseWsAux false rest

/-- The return-type cleanup applied in the class-body function branch:
keyword removal, whitespace collapse, strip. -/
def cleanRetType (rt : String) : String :=
  pyStrip ⟨collapseWsAux false (removeKws rt.data.length false rt.data)⟩

/-- The sequential `public:`/`private:`/`protected:` leading-marker strip
applied to return types and variable types. -/
def stripSpecLead (s : String) : String :=
  ["public:", "private:", "protected:"].foldl
    (fun acc spec =>
      if startsWithS acc spec then pyStrip ⟨acc.data.drop spec.length⟩ else acc)
    s

/-- `re.sub(r'^(virtual|inline|explicit|constexpr|static)\\s+', '', ret_type)`.
The doubled backslash in the source makes the pattern require a literal
backslash followed by a run of `s` characters, so this is a no-op on normal
input; embedded exactly. -/
def bslashBugStrip (s : String) : String :=
  (firstSome (["virtual", "inline", "explicit", "constexpr", "static"].map
    (fun kw =>
      (litAt kw.data s.data).bind (fun r =>
        match r with
        | '\\' :: r₂ =>
          let ss := r₂.takeWhile (· = 's')
          if ss.isEmpty then none else some (⟨r₂.drop ss.length⟩ : String)
        | _ => none)))).getD s

/-- The ordered `prefixes` table of `_generate_brief_description`. -/
def briefKvs : List (String × String) :=
  [("get", "Gets the "), ("set", "Sets the "), ("is", "Checks if "),
   ("has", "Checks if has "), ("create", "Creates a new "),
   ("init", "Initializes the "), ("update", "Updates the "),
   ("delete", "Deletes the "), ("remove", "Removes the "),
   ("add", "Adds a new "), ("find", "Finds the "),
   ("calculate", "Calculates the "), ("compute", "Computes the ")]

/-- `_generate_brief_description` of header_generator.py. -/
def briefDescription (name : String) (isVar : Bool) : String :=
  if isVar then "Variable " ++ name
  else
    let readable :=
      pyCapitalize (lowerS ⟨(spaceBeforeUpper name.data).map
        (fun c => if c = '_' then ' ' else c)⟩)
    match firstSome (briefKvs.map (fun kv =>
      if startsWithS (lowerS name) kv.1 then some kv else none)) with
    | some (k, d) =>
      let rest : String := ⟨name.data.drop k.length⟩
      if rest = "" then ⟨d.data.dropLast⟩
      else
        d ++ lowerS ⟨(spaceBeforeUpper rest.data).map
          (fun c => if c = '_' then ' ' else c)⟩
    | none => readable

/-- `f"{self.current_class}"` (Python renders `None` literally). -/
def ccText (cc : Option String) : String :=
  match cc with
  | some c => c
  | none => "None"

/-- `_generate_class_comment`. -/
def genClassComment (className classType indent : String) : List String :=
  [indent ++ "/**",
   indent ++ " * @brief " ++ classType ++ " " ++ className,
   indent ++ " *",
   indent ++ " * @details Detailed description of " ++ classType ++ " " ++ className,
   indent ++ " */"].map (· ++ "\n")

/-- `_generate_function_comment` (note the final entry gains a second newline
from the `line + '\n'` mapping applied to `'{indent} */\n'`). -/
def genFunctionComment (cc : Option String) (func : FuncInfo) (indent : String) :
    List String :=
  let retType := bslashBugStrip (stripSpecLead (pyStrip func.returnType))
  let brief :=
    if func.isCopyCtor then indent ++ " * @brief Copy constructor for " ++ ccText cc
    else if func.isMoveCtor then indent ++ " * @brief Move constructor for " ++ ccText cc
    else if func.isCopyAssign then indent ++ " * @brief Copy assignment operator for " ++ ccText cc
    else if func.isMoveAssign then indent ++ " * @brief Move assignment operator for " ++ ccText cc
    else if func.isCtor then indent ++ " * @brief Constructor for " ++ ccText cc
    else if func.isDtor then indent ++ " * @brief Destructor for " ++ ccText cc
    else indent ++ " * @brief " ++ briefDescription func.name false
  let paramLines := func.params.filterMap (fun p =>
    if p.2 ≠ "" then some (indent ++ " * @param " ++ lstripAmpStar p.2) else none)
  let returnLines :=
    if !func.isCtor && !func.isDtor && retType ≠ "void" && retType ≠ "" then
      [indent ++ " * @return " ++ retType]
    else []
  let throwLines :=
    match func.throwSpec with
    | some ts =>
      if ts ≠ [] then ts.map (fun e => indent ++ " * @throws " ++ e)
      else if !func.noexceptFlag then [indent ++ " * @throws std::exception on error"]
      else []
    | none =>
      if !func.noexceptFlag then [indent ++ " * @throws std::exception on error"]
      else []
  let staticLines := if func.staticFlag then [indent ++ " * @static"] else []
  let constLines := if func.constFlag then [indent ++ " * @const"] else []
  ([indent ++ "/**", brief, indent ++ " * @details"] ++ paramLines ++
   returnLines ++ throwLines ++ staticLines ++ constLines ++
   [indent ++ " */\n"]).map (· ++ "\n")

/-- `_generate_enum_comment`. -/
def genEnumComment (enumName indent : String) : List String :=
  [indent ++ "/**\n",
   indent ++ " * @brief Enum " ++ enumName ++ "\n",
   indent ++ " *\n",
   indent ++ " * @details Detailed description of enum " ++ enumName ++ "\n",
   indent ++ " */\n"]

/-- `_generate_variable_comment` (returns `none` for declarations that carry
parentheses). -/
def genVariableComment (var : VarInfo) (indent : String) : Option (List String) :=
  if containsCharS '(' var.fullDecl || containsCharS ')' var.fullDecl then none
  else
    some ([indent ++ "/**\n",
           indent ++ " * @brief " ++ briefDescription var.name true ++ "\n",
           indent ++ " *\n"] ++
          (if var.staticFlag then [indent ++ " * @static\n"] else []) ++
          (if var.constexprFlag then [indent ++ " * @constexpr\n"] else []) ++
          (if var.mutableFlag then [indent ++ " * @mutable\n"] else []) ++
          [indent ++ " */\n"])

/-!
## HeaderDoxygenGenerator: scanner regexes and loops
-/

/-- `re.match(r'namespace\s+(\w+)\s*\{', stripped)`. -/
def nsMatch (s : String) : Option String :=
  match (litAt "namespace".data s.data).bind wsPlus with
  | none => none
  | some cs =>
    let w := wordRun cs
    if w.1.isEmpty then none
    else
      match dropWs w.2 with
      | '\x7b' :: _ => some ⟨w.1⟩
      | _ => none

/-- `re.match(r'^(public|private|protected)\s*:\s*$', stripped)`. -/
def accessSpecMatch (s : String) : Bool :=
  ["public", "private", "protected"].any (fun kw =>
    match litAt kw.data s.data with
    | some r =>
      (match dropWs r with
       | ':' :: r₂ => (dropWs r₂).isEmpty
       | _ => false)
    | none => false)

/-- `re.match(r'^(class|struct)\s+(\w+)(.*)$', stripped)`; the trailing group
always matches the remainder. -/
def classDeclMatch (s : String) : Option (String × String) :=
  firstSome (["class", "struct"].map (fun kw =>
    match (litAt kw.data s.data).bind wsPlus with
    | some cs =>
      let w := wordRun cs
      if w.1.isEmpty then none else some (kw, (⟨w.1⟩ : String))
    | none => none))

/-- The `(\w+)\s*(?::\s*\w+)?\s*\{` tail of the enum regex. -/
def enumTail (cs : List Char) : Option String :=
  let w := wordRun cs
  if w.1.isEmpty then none
  else
    let cs₂ := dropWs w.2
    let cs₃ : Option (List Char) :=
      match cs₂ with
      | ':' :: r =>
        let r₂ := dropWs r
        let w₂ := wordRun r₂
        if w₂.1.isEmpty then none else some (dropWs w₂.2)
      | _ => some cs₂
    match cs₃ with
    | some ('\x7b' :: _) => some ⟨w.1⟩
    | _ => none

/-- `re.match(r'enum\s+(?:class\s+)?(\w+)\s*(?::\s*\w+)?\s*\{', stripped)`;
the optional `class` keyword is tried greedily with backtracking, so
`enum class {` names the enum `class`. -/
def enumMatch (s : String) : Option String :=
  match (litAt "enum".data s.data).bind wsPlus with
  | none => none
  | some cs =>
    match (litAt "class".data cs).bind wsPlus with
    | some cs₂ =>
      match enumTail cs₂ with
      | some nm => some nm
      | none => enumTail cs
    | none => enumTail cs

/-- `if output and output[-1].strip():`. -/
def lastNonBlank (out : List String) : Bool :=
  match out.getLast? with
  | some l => pyStrip l ≠ ""
  | none => false

/-- `while output and not output[-1].strip(): output.pop()`. -/
def trimTrailingBlank (out : List String) : List String :=
  (out.reverse.dropWhile (fun l => pyStrip l = "")).reverse

/-- The while part of the existing-comment skip (default mode): copy lines
until one contains `*/`. -/
def commentSkipLoop (fuel : Nat) (lines : List String) (i : Nat)
    (out : List String) : List String × Nat :=
  match fuel with
  | 0 => (out, i)
  | f + 1 =>
    if i < lines.length && !occursStr "*/" (lines.getD i "") then
      commentSkipLoop f lines (i + 1) (out ++ [lines.getD i ""])
    else (out, i)

/-- The full existing-comment skip of the default mode (loop plus the final
`*/` line). -/
def commentSkipOut (lines : List String) (i : Nat) (out : List String) :
    List String × Nat :=
  let r := commentSkipLoop (lines.length + 1) lines i out
  if r.2 < lines.length then (r.1 ++ [lines.getD r.2 ""], r.2 + 1)
  else r

/-- The while part of the enhance-mode capture: collect lines until one
contains `*/`. -/
def commentCollectLoop (fuel : Nat) (lines : List String) (i : Nat)
    (acc : List String) : List String × Nat :=
  match fuel with
  | 0 => (acc, i)
  | f + 1 =>
    if i < lines.length && !occursStr "*/" (lines.getD i "") then
      commentCollectLoop f lines (i + 1) (acc ++ [lines.getD i ""])
    else (acc, i)

/-- The full enhance-mode capture (`existing_comment_lines`). -/
def commentCollect (lines : List String) (i : Nat) : List String × Nat :=
  let r := commentCollectLoop (lines.length + 1) lines i []
  if r.2 < lines.length then (r.1 ++ [lines.getD r.2 ""], r.2 + 1)
  else r

/-- The class-declaration lookahead loop (accumulate lines until `{`, give up
at a comment line or a `;`). -/
def classScanLoop (fuel : Nat) (lines : List String) (j : Nat)
    (acc : List String) : List String × Bool :=
  match fuel with
  | 0 => (acc, false)
  | f + 1 =>
    if j < lines.length then
      let nl := pyStrip (lines.getD j "")
      let acc₂ := acc ++ [lines.getD j ""]
      if startsWithS nl "//" || startsWithS nl "/*" then (acc₂, false)
      else if containsCharS '\x7b' nl then (acc₂, true)
      else if containsCharS ';' nl then (acc₂, false)
      else classScanLoop f lines (j + 1) acc₂
    else (acc, false)

/-- The robust multi-line class/struct detection of `parse_header` /
`parse_header_internal`: `some (type, name, decl_lines)` when
`class_decl_found`. -/
def classDeclScan (lines : List String) (i : Nat) (stripped : String) :
    Option (String × String × List String) :=
  match classDeclMatch stripped with
  | none => none
  | some (ctype, cname) =>
    if containsCharS '\x7b' stripped then some (ctype, cname, [lines.getD i ""])
    else
      let r := classScanLoop (lines.length + 1) lines (i + 1) [lines.getD i ""]
      if r.2 then some (ctype, cname, r.1) else none

/-- The class-body loop of `parse_header` (header_generator.py, lines
145-235).  State: brace depth, the write-only `prev_access_specifier_line`
marker, the always-false `prev_was_access_specifier` / `skip_next_comment`
flags, the `in_function_body` counter and the shared `last_was_decl`.
Returns the updated generator state, output, index and `last_was_decl`. -/
def hdrClassBody (fuel : Nat) (st : GenState) (lines : List String) (i : Nat)
    (out : List String) (depth : Int) (paLine : Bool) (prevWasAccess : Bool)
    (skipNext : Bool) (inFn : Int) (lastWasDecl : Bool) :
    GenState × List String × Nat × Bool :=
  match fuel with
  | 0 => (st, out, i, lastWasDecl)
  | f + 1 =>
    if i < lines.length then
      let raw := lines.getD i ""
      let stripped := pyStrip (pyRstripNL raw)
      let depth₂ := depth + (countChar '\x7b' stripped : Int) -
                    (countChar '\x7d' stripped : Int)
      if accessSpecMatch stripped then
        hdrClassBody f st lines (i + 1) (out ++ [raw]) depth₂ true
          prevWasAccess skipNext inFn false
      else if inFn > 0 then
        let inFn₂ := inFn + (countChar '\x7b' stripped : Int) -
                     (countChar '\x7d' stripped : Int)
        hdrClassBody f st lines (i + 1) (out ++ [raw]) depth₂ paLine
          prevWasAccess skipNext inFn₂ lastWasDecl
      else if stripped = "" || startsWithS stripped "//" || startsWithS stripped "#" then
        hdrClassBody f st lines (i + 1) (out ++ [raw]) depth₂ paLine
          prevWasAccess skipNext inFn lastWasDecl
      else
        match matchFunction st.currentClass stripped lines i with
        | some (fd, endIdx) =>
          let indent := indentOf raw
          let fd₂ := { fd with returnType := cleanRetType fd.returnType }
          let cmt := (genFunctionComment st.currentClass fd₂ indent).map
            (fun l => pyRstripNL l ++ "\n")
          let declLines := sliceLines lines i endIdx
          let inFn₂ : Int := if containsCharS '\x7b' (joinStr declLines) then 1 else inFn
          hdrClassBody f st lines (endIdx + 1) (out ++ cmt ++ declLines) depth₂
            false prevWasAccess skipNext inFn₂ true
        | none =>
          match matchVariable stripped lines i with
          | some (vd, endIdx) =>
            let indent := indentOf raw
            let out₂ := out ++
              (if lastNonBlank out && !prevWasAccess && !skipNext then ["\n"] else [])
            let out₃ :=
              if !prevWasAccess && !skipNext then
                let vd₂ := { vd with type := stripSpecLead vd.type }
                out₂ ++ ((genVariableComment vd₂ indent).getD [])
              else out₂
            hdrClassBody f st lines (endIdx + 1)
              (out₃ ++ sliceLines lines i endIdx ++ ["\n"]) depth₂ paLine
              false false inFn true
          | none =>
            if depth₂ = 0 then
              ({ st with currentClass := none }, out ++ [raw] ++ ["\n"], i + 1, true)
            else
              hdrClassBody f st lines (i + 1) (out ++ [raw]) depth₂ paLine
                false false inFn false
    else (st, out, i, lastWasDecl)

/-- The main loop of `parse_header` (header_generator.py).  The `enh` flag is
`self.enhance_existing`; it selects between the skip and capture codepaths for
existing documentation blocks. -/
def hdrLoop (enh : Bool) (fuel : Nat) (st : GenState) (lines : List String)
    (i : Nat) (out : List String) (lastWasDecl : Bool) : GenState × List String :=
  match fuel with
  | 0 => (st, out)
  | f + 1 =>
    if i < lines.length then
      let raw := lines.getD i ""
      let stripped := pyStrip (pyRstripNL raw)
      if stripped = "" then hdrLoop enh f st lines (i + 1) (out ++ [raw]) false
      else if startsWithS stripped "/**" || startsWithS stripped "///" ||
              startsWithS stripped "/*!" then
        if !enh then
          let r := commentSkipOut lines i out
          hdrLoop enh f st lines r.2 r.1 false
        else
          let r := commentCollect lines i
          hdrLoop enh f st lines r.2 (out ++ r.1) false
      else
        match nsMatch stripped with
        | some nm =>
          let out₂ := out ++ (if lastNonBlank out then ["\n"] else []) ++ [raw]
          hdrLoop enh f { st with currentNamespace := some nm } lines (i + 1) out₂ true
        | none =>
          match classDeclScan lines i stripped with
          | some (ctype, cname, declLines) =>
            let st₂ := { st with currentClass := some cname }
            let indent := indentOf (declLines.headD "")
            let out₂ := out ++ (if lastNonBlank out then ["\n"] else []) ++
              genClassComment cname ctype indent ++ declLines ++ ["\n"]
            let r := hdrClassBody (lines.length + 1) st₂ lines
              (i + declLines.length) out₂ 1 false false false 0 true
            hdrLoop enh f r.1 lines r.2.2.1 r.2.1 r.2.2.2
          | none =>
            match matchFunction st.currentClass stripped lines i with
            | some (fd, endIdx) =>
              let indent := indentOf raw
              let out₂ := out ++ (if lastNonBlank out then ["\n"] else []) ++
                genFunctionComment st.currentClass fd indent ++
                sliceLines lines i endIdx ++ ["\n"]
              hdrLoop enh f st lines (endIdx + 1) out₂ true
            | none =>
              match enumMatch stripped with
              | some ename =>
                let indent := indentOf raw
                let out₂ := out ++ (if lastNonBlank out then ["\n"] else []) ++
                  genEnumComment ename indent ++ [raw] ++ ["\n"]
                hdrLoop enh f st lines (i + 1) out₂ true
              | none =>
                if stripped = "\x7d" &&
                   (st.currentClass.isSome || st.currentNamespace.isSome) then
                  let st₂ :=
                    if containsCharS ';' stripped then
                      match st.currentClass with
                      | some _ => { st with currentClass := none }
                      | none => { st with currentNamespace := none }
                    else st
                  hdrLoop enh f st₂ lines (i + 1) (out ++ [raw] ++ ["\n"]) true
                else hdrLoop enh f st lines (i + 1) (out ++ [raw]) false
    else (st, out)

/-- Line-level `parse_header`: the full scan plus the trailing-blank trim and
final newline. -/
def parseHeaderLines (enh : Bool) (st : GenState) (lines : List String) :
    GenState × List String :=
  let r := hdrLoop enh (lines.length + 1) st lines 0 [] false
  (r.1, trimTrailingBlank r.2 ++ ["\n"])

/-- The header-file extension allowlist of `parse_header`. -/
def headerExts : List String := ["h", "hpp", "hh", "hxx"]

/-- `filename.split('.')[-1].lower()`. -/
def extOf (filename : String) : String :=
  lowerS ((splitOnCharS '.' filename).getLastD filename)

/-- `parse_header` of header_generator.py: extension gate, then the scan of
the file's lines. -/
def parseHeaderFile (enh : Bool) (st : GenState) (filename : String)
    (lines : List String) : Except String (GenState × List String) :=
  if !(headerExts.contains (extOf filename)) then
    Except.error "Only C++ header files are supported (.h, .hpp, .hh, .hxx)"
  else Except.ok (parseHeaderLines enh st lines)

/-!
## CppSourceGenerator (cpp_generator.py)
-/

/-- The class-body loop of `parse_header_internal` (cpp_generator.py, lines
152-231).  Unlike the header variant, an access-specifier line is only held in
`prev_access_specifier_line` and re-emitted in the function branch. -/
def cppClassBody (fuel : Nat) (st : GenState) (lines : List String) (i : Nat)
    (out : List String) (depth : Int) (paLine : Option String) (inFn : Int)
    (lastWasDecl : Bool) : GenState × List String × Nat × Bool :=
  match fuel with
  | 0 => (st, out, i, lastWasDecl)
  | f + 1 =>
    if i < lines.length then
      let raw := lines.getD i ""
      let stripped := pyStrip (pyRstripNL raw)
      let depth₂ := depth + (countChar '\x7b' stripped : Int) -
                    (countChar '\x7d' stripped : Int)
      if accessSpecMatch stripped then
        cppClassBody f st lines (i + 1) out depth₂ (some raw) inFn false
      else if inFn > 0 then
        let inFn₂ := inFn + (countChar '\x7b' stripped : Int) -
                     (countChar '\x7d' stripped : Int)
        let paLine₂ := if inFn₂ = 0 then none else paLine
        cppClassBody f st lines (i + 1) (out ++ [raw]) depth₂ paLine₂ inFn₂
          lastWasDecl
      else
        match matchFunction st.currentClass stripped lines i with
        | some (fd, endIdx) =>
          let indent := indentOf raw
          let fd₂ := { fd with returnType := cleanRetType fd.returnType }
          let out₂ :=
            match paLine with
            | some l => out ++ [l]
            | none => out
          let cmt := (genFunctionComment st.currentClass fd₂ indent).map
            (fun l => pyRstripNL l ++ "\n")
          let declLines := sliceLines lines i endIdx
          let inFn₂ : Int := if containsCharS '\x7b' (joinStr declLines) then 1 else inFn
          cppClassBody f st lines (endIdx + 1) (out₂ ++ cmt ++ declLines) depth₂
            none inFn₂ true
        | none =>
          match matchVariable stripped lines i with
          | some (vd, endIdx) =>
            let indent := indentOf raw
            let out₂ := out ++ (if lastNonBlank out then ["\n"] else [])
            let vd₂ := { vd with type := stripSpecLead vd.type }
            let out₃ := out₂ ++ ((genVariableComment vd₂ indent).getD [])
            cppClassBody f st lines (endIdx + 1)
              (out₃ ++ sliceLines lines i endIdx ++ ["\n"]) depth₂ paLine inFn true
          | none =>
            if depth₂ = 0 then
              ({ st with currentClass := none }, out ++ [raw] ++ ["\n"], i + 1, true)
            else
              cppClassBody f st lines (i + 1) (out ++ [raw]) depth₂ paLine inFn false
    else (st, out, i, lastWasDecl)

/-- The main loop of `parse_header_internal` (cpp_generator.py). -/
def cppLoop (fuel : Nat) (st : GenState) (lines : List String) (i : Nat)
    (out : List String) (lastWasDecl : Bool) : GenState × List String :=
  match fuel with
  | 0 => (st, out)
  | f + 1 =>
    if i < lines.length then
      let raw := lines.getD i ""
      let stripped := pyStrip (pyRstripNL raw)
      if stripped = "" then cppLoop f st lines (i + 1) (out ++ [raw]) false
      else if startsWithS stripped "/**" || startsWithS stripped "///" ||
              startsWithS stripped "/*!" then
        let r := commentSkipOut lines i out
        cppLoop f st lines r.2 r.1 false
      else
        match nsMatch stripped with
        | some nm =>
          let out₂ := out ++ (if lastNonBlank out then ["\n"] else []) ++ [raw]
          cppLoop f { st with currentNamespace := some nm } lines (i + 1) out₂ true
        | none =>
          match classDeclScan lines i stripped with
          | some (ctype, cname, declLines) =>
            let st₂ := { st with currentClass := some cname }
            let indent := indentOf (declLines.headD "")
            let out₂ := out ++ (if lastNonBlank out then ["\n"] else []) ++
              genClassComment cname ctype indent ++ declLines ++ ["\n"]
            let r := cppClassBody (lines.length + 1) st₂ lines
              (i + declLines.length) out₂ 1 none 0 true
            cppLoop f r.1 lines r.2.2.1 r.2.1 r.2.2.2
          | none =>
            match matchFunction st.currentClass stripped lines i with
            | some (fd, endIdx) =>
              let indent := indentOf raw
              let out₂ := out ++ (if lastNonBlank out then ["\n"] else []) ++
                genFunctionComment st.currentClass fd indent ++
                sliceLines lines i endIdx ++ ["\n"]
              cppLoop f st lines (endIdx + 1) out₂ true
            | none =>
              match enumMatch stripped with
              | some ename =>
                let indent := indentOf raw
                let out₂ := out ++ (if lastNonBlank out then ["\n"] else []) ++
                  genEnumComment ename indent ++ [raw] ++ ["\n"]
                cppLoop f st lines (i + 1) out₂ true
              | none =>
                if stripped = "\x7d" &&
                   (st.currentClass.isSome || st.currentNamespace.isSome) then
                  let st₂ :=
                    if containsCharS ';' stripped then
                      match st.currentClass with
                      | some _ => { st with currentClass := none }
                      | none => { st with currentNamespace := none }
                    else st
                  cppLoop f st₂ lines (i + 1) (out ++ [raw] ++ ["\n"]) true
                else cppLoop f st lines (i + 1) (out ++ [raw]) false
    else (st, out)

/-- `parse_header_internal` of cpp_generator.py. -/
def parseHeaderInternal (st : GenState) (lines : List String) :
    GenState × List String :=
  let r := cppLoop (lines.length + 1) st lines 0 [] false
  (r.1, trimTrailingBlank r.2 ++ ["\n"])

/-- The `framework_names` display map of `_generate_test_case_comment`. -/
def frameworkDisplay (fw : String) : String :=
  if fw = "gtest" then "Google Test"
  else if fw = "catch2" then "Catch2"
  else if fw = "doctest" then "doctest"
  else if fw = "boost" then "Boost.Test"
  else fw

/-- `_generate_test_case_comment` of cpp_generator.py. -/
def genTestCaseComment (ti : TestInfo) (indent : String) : List String :=
  let desc := genTestDescription ti
  let suiteLines :=
    match ti.testSuite with
    | some s =>
      if s ≠ "" then
        [indent ++ " * " ++
         (if ti.framework = "gtest" then "Test Suite" else "Test Category") ++
         ": " ++ s ++ "\n"]
      else []
    | none => []
  let fixtureLines :=
    match ti.fixtureClass with
    | some fc => if fc ≠ "" then [indent ++ " * Test Fixture: " ++ fc ++ "\n"] else []
    | none => []
  let coverage := analyzeTestCoverage ti
  let coverageLines :=
    if coverage ≠ [] then
      [indent ++ " *\n", indent ++ " * Test Coverage:\n"] ++
      coverage.map (fun p => indent ++ " * - " ++ p ++ "\n")
    else []
  let typeLines :=
    if ti.testType ≠ "" then
      [indent ++ " *\n", indent ++ " * @test " ++ ti.testType ++ "\n"]
    else []
  [indent ++ "/**\n", indent ++ " * @brief " ++ desc ++ "\n", indent ++ " *\n",
   indent ++ " * @details\n"] ++ suiteLines ++ fixtureLines ++
  [indent ++ " * Framework: " ++ frameworkDisplay ti.framework ++ "\n"] ++
  coverageLines ++ typeLines ++ [indent ++ " */\n"]

/-- The loop of `_parse_test_file` of cpp_generator.py. -/
def testFileLoop (fuel : Nat) (fw : String) (lines : List String) (i : Nat)
    (out : List String) : List String :=
  match fuel with
  | 0 => out
  | f + 1 =>
    if i < lines.length then
      let raw := lines.getD i ""
      let stripped := pyStrip (pyRstripNL raw)
      if stripped = "" then testFileLoop f fw lines (i + 1) (out ++ [raw])
      else if startsWithS stripped "/**" || startsWithS stripped "///" ||
              startsWithS stripped "/*!" then
        let r := commentSkipOut lines i out
        testFileLoop f fw lines r.2 r.1
      else
        match parseTestCase lines i fw with
        | some (ti, endIdx) =>
          let indent := indentOf raw
          let out₂ := out ++ (if lastNonBlank out then ["\n"] else []) ++
            genTestCaseComment ti indent ++ sliceLines lines i endIdx ++ ["\n"]
          testFileLoop f fw lines (endIdx + 1) out₂
        | none => testFileLoop f fw lines (i + 1) (out ++ [raw])
    else out

/-- `_parse_test_file` of cpp_generator.py. -/
def parseTestFileLines (fw : String) (lines : List String) : List String :=
  trimTrailingBlank (testFileLoop (lines.length + 1) fw lines 0 []) ++ ["\n"]

/-- The source-file extension allowlist of `parse_source`. -/
def srcExts : List String :=
  ["h", "hpp", "hh", "hxx", "cpp", "cc", "cxx", "c++"]

/-- `parse_source` of cpp_generator.py: extension gate (raised before the file
is read or scanned), framework detection, then dispatch.  The result carries
the updated generator state, the output lines and `detected_framework`. -/
def parseSource (st : GenState) (filename : String) (lines : List String) :
    Except String (GenState × List String × Option String) :=
  if !(srcExts.contains (extOf filename)) then
    Except.error "Only C++ header and source files are supported"
  else
    match detectTestFramework lines with
    | some fw => Except.ok (st, parseTestFileLines fw lines, some fw)
    | none =>
      let r := parseHeaderInternal st lines
      Except.ok (r.1, r.2, none)

/-!
## DirectoryProcessor (directory_processor.py)
-/

/-- The per-file success/failure message built by `process_directory`. -/
def fileResultMsg (fw : Option String) : String :=
  "Processed successfully" ++
  (match fw with
   | some f => " (Test file: " ++ f ++ ")"
   | none => "")

/-- The per-file loop of `process_directory`: one shared generator instance is
reused, so its state threads from file to file; an exception is captured as a
`(False, message)` entry and the loop continues.  Each entry also records the
output lines written for that file (`none` on failure). -/
def processFiles (st : GenState) :
    List (String × List String) → List (String × (Bool × String) × Option (List String))
  | [] => []
  | (nm, ls) :: rest =>
    match parseSource st nm ls with
    | Except.ok r =>
      (nm, (true, fileResultMsg r.2.2), some r.2.1) :: processFiles r.1 rest
    | Except.error e =>
      (nm, (false, "Error: " ++ e), none) :: processFiles st rest

/-!
## Claim theorems
-/

set_option maxRecDepth 10000

/-- C1: the claim states that every original line survives in the output of
`parse_header` / `parse_header_internal`, and in particular that access-region
marker lines such as `public:` are never dropped.  The code contradicts this:
`parse_header_internal` holds an access-specifier line in
`prev_access_specifier_line` without emitting it, and only the function branch
re-emits it, so on `class A { public: };` the `public:` line vanishes from the
output.  This theorem evaluates the code at that failing input. -/
theorem c1_access_marker_dropped :
    (parseHeaderInternal initGenState
      ["class A \x7b\n", "public:\n", "\x7d;\n"]).2 =
      ["/**\n", " * @brief class A\n", " *\n",
       " * @details Detailed description of class A\n", " */\n",
       "class A \x7b\n", "\n", "\x7d;\n", "\n"] ∧
    "public:\n" ∉ (parseHeaderInternal initGenState
      ["class A \x7b\n", "public:\n", "\x7d;\n"]).2 := by
  constructor
  · rfl
  · decide

/-- C2 counterexample: the claim says a second run on the transformer's own
output inserts zero new comment blocks.  On the single declaration
`int getValue();` the first pass output contains one `/**` line, and re-running
`parse_header` on that output (re-split into lines as a second read would)
contains two: the declaration, although immediately preceded by the generated
block, receives a fresh comment. -/
theorem c2_second_pass_inserts :
    ((parseHeaderLines false initGenState ["int getValue();\n"]).2.count "/**\n" = 1) ∧
    ((parseHeaderLines false initGenState
        (relines (parseHeaderLines false initGenState ["int getValue();\n"]).2)).2.count
      "/**\n" = 2) := by
  constructor
  · rfl
  · rfl

/-- C2 amended: existing documentation blocks are passed through verbatim but
do not suppress comment generation for the declaration that follows; the
second pass inserts a fresh comment block before the still-recognized
declaration.  Full second-pass output at the counterexample input. -/
theorem c2_second_pass_output :
    (parseHeaderLines false initGenState
      (relines (parseHeaderLines false initGenState ["int getValue();\n"]).2)).2 =
    ["/**\n", " * @brief Gets the  value\n", " * @details\n", " * @return int\n",
     " * @throws std::exception on error\n", " */\n", "\n",
     "/**\n", " * @brief Gets the  value\n", " * @details\n", " * @return int\n",
     " * @throws std::exception on error\n", " */\n\n",
     "int getValue();\n", "\n"] := by
  rfl

/-- The class-body input of claim C3, members on their own lines. -/
def c3Input : List String :=
  ["class Foo \x7b\n", "public:\n", "    Foo();\n", "    ~Foo();\n",
   "    Foo(const Foo&);\n", "    Foo(Foo&&);\n", "\x7d;\n"]

/-- C3 counterexample: the claim expects the four distinct special-member
briefs, including "Copy constructor for Foo" for `Foo(const Foo&);`.  The code
splits the unnamed parameter `const Foo&` into type `const` and name `Foo&`,
so the copy-constructor test fails and no such brief appears anywhere. -/
theorem c3_no_copy_brief :
    (parseHeaderLines false initGenState c3Input).2.all
      (fun l => !occursStr "Copy constructor for Foo" l) = true := by
  decide

/-- C3 amended: on that input `Foo()` and `Foo(const Foo&)` both receive the
brief "Constructor for Foo" (the unnamed-parameter copy constructor is
classified as a plain constructor), `~Foo()` receives "Destructor for Foo" and
`Foo(Foo&&)` receives "Move constructor for Foo" — three distinct briefs, not
four. -/
theorem c3_actual_briefs :
    ((parseHeaderLines false initGenState c3Input).2.countP
      (fun l => occursStr "@brief Constructor for Foo" l) = 2) ∧
    ((parseHeaderLines false initGenState c3Input).2.countP
      (fun l => occursStr "@brief Destructor for Foo" l) = 1) ∧
    ((parseHeaderLines false initGenState c3Input).2.countP
      (fun l => occursStr "@brief Move constructor for Foo" l) = 1) ∧
    ((parseHeaderLines false initGenState c3Input).2.countP
      (fun l => occursStr "Copy constructor" l) = 0) ∧
    ((matchFunction (some "Foo") "Foo(const Foo& other);"
        ["Foo(const Foo& other);"] 0).map (fun r => r.1.isCopyCtor) =
      some true) := by
  refine ⟨?_, ?_, ?_, ?_, ?_⟩ <;> rfl

/-- C4: the claim says detection returns a CppUnit dialect tag for any file
with a CppUnit signature.  `detect_test_framework` has no CppUnit branch at
all: on the repository's own test input
`['#include <cppunit/TestCase.h>', '', 'CPPUNIT_TEST(testMethod)']` it returns
no framework, contradicting the repository's tests, which expect 'cppunit'. -/
theorem c4_cppunit_not_detected :
    detectTestFramework
      ["#include <cppunit/TestCase.h>", "", "CPPUNIT_TEST(testMethod)"] = none := by
  rfl

/-- C8: the claim says scan state is never shared across files, so a file's
batch output equals its standalone output.  `DirectoryProcessor` reuses one
generator: after `a.h` ends inside an unterminated class, `current_class`
is still `Foo`, and `Foo();` in `b.h` is documented as "Constructor for Foo"
in the batch but as the generic name-derived brief when processed alone. -/
theorem c8_state_leaks_across_files :
    (processFiles initGenState
      [("a.h", ["class Foo \x7b\n"]), ("b.h", ["Foo();\n"])] =
      [("a.h", (true, "Processed successfully"), some
         ["/**\n", " * @brief class Foo\n", " *\n",
          " * @details Detailed description of class Foo\n", " */\n",
          "class Foo \x7b\n", "\n"]),
       ("b.h", (true, "Processed successfully"), some
         ["/**\n", " * @brief Constructor for Foo\n", " * @details\n",
          " * @throws std::exception on error\n", " */\n\n", "Foo();\n", "\n"])]) ∧
    (parseSource initGenState "b.h" ["Foo();\n"] =
      Except.ok (initGenState,
        ["/**\n", " * @brief  foo\n", " * @details\n",
         " * @throws std::exception on error\n", " */\n\n", "Foo();\n", "\n"],
        none)) ∧
    (["/**\n", " * @brief Constructor for Foo\n", " * @details\n",
      " * @throws std::exception on error\n", " */\n\n", "Foo();\n", "\n"] ≠
     ["/**\n", " * @brief  foo\n", " * @details\n",
      " * @throws std::exception on error\n", " */\n\n", "Foo();\n", "\n"]) := by
  refine ⟨?_, ?_, ?_⟩
  · rfl
  · rfl
  · decide

/-- C5: for a filename whose extension is outside the allowlist, `parse_source`
fails with the configuration error, the error is independent of the file's
contents (nothing is scanned or read), and in batch mode the failure is
captured as a `(False, message)` entry while the remaining files are still
processed. -/
theorem c5_extension_gate (name : String) (st : GenState)
    (lines lines₂ : List String) (rest : List (String × List String))
    (h : srcExts.contains (extOf name) = false) :
    parseSource st name lines =
      Except.error "Only C++ header and source files are supported" ∧
    parseSource st name lines = parseSource st name lines₂ ∧
    processFiles st ((name, lines) :: rest) =
      (name, (false, "Error: Only C++ header and source files are supported"),
       none) :: processFiles st rest := by
  have h₁ : parseSource st name lines =
      Except.error "Only C++ header and source files are supported" := by
    unfold parseSource
    rw [h]
    rfl
  have h₂ : parseSource st name lines₂ =
      Except.error "Only C++ header and source files are supported" := by
    unfold parseSource
    rw [h]
    rfl
  refine ⟨h₁, h₁.trans h₂.symm, ?_⟩
  conv_lhs => rw [processFiles]
  rw [h₁]
  rfl

/-- Witness for C5 at a concrete bad-extension file inside a batch. -/
theorem c5_extension_gate_witness :
    (srcExts.contains (extOf "notes.txt") = false) ∧
    processFiles initGenState
      [("notes.txt", ["int x;\n"]), ("b.h", ["int getValue();\n"])] =
      ("notes.txt", (false, "Error: Only C++ header and source files are supported"),
       none) :: processFiles initGenState [("b.h", ["int getValue();\n"])] :=
  ⟨by decide,
   (c5_extension_gate "notes.txt" initGenState ["int x;\n"] []
     [("b.h", ["int getValue();\n"])] (by decide)).2.2⟩

/-- C6: whenever the joined declaration contains `operator=`, `_match_function`
returns a result only if a class is currently tracked and the declaration
matches the copy/move assignment shape for that class; in particular with no
tracked class every `operator=` declaration is rejected. -/
theorem c6_assignment_gate (cc : Option String) (line : String)
    (lines : List String) (i : Nat) (fd : String) (ei : Nat)
    (hj : joinDecl line lines i = some (fd, ei))
    (hop : occursStr "operator=" fd = true) :
    (matchFunction cc line lines i ≠ none →
      ∃ c, cc = some c ∧ assignShapeSearch c fd = true) ∧
    (cc = none → matchFunction cc line lines i = none) := by
  unfold matchFunction
  rw [hj]
  cases cc with
  | none =>
    constructor
    · intro hne
      exfalso
      apply hne
      simp [hop]
    · intro _
      simp [hop]
  | some c =>
    constructor
    · intro hne
      by_cases hs : assignShapeSearch c fd = true
      · exact ⟨c, rfl, hs⟩
      · exfalso
        apply hne
        simp only [Bool.not_eq_true] at hs
        simp [hop, hs]
    · intro hcc
      cases hcc

/-- Witness for C6: with no tracked class, the copy-assignment declaration
`Foo& operator=(const Foo&);` is rejected. -/
theorem c6_assignment_gate_witness :
    (joinDecl "Foo& operator=(const Foo&);" [] 0 =
      some ("Foo& operator=(const Foo&)", 0)) ∧
    (occursStr "operator=" "Foo& operator=(const Foo&)" = true) ∧
    matchFunction none "Foo& operator=(const Foo&);" [] 0 = none :=
  ⟨by rfl, by rfl,
   (c6_assignment_gate none "Foo& operator=(const Foo&);" [] 0
     "Foo& operator=(const Foo&)" 0 (by rfl) (by rfl)).2 rfl⟩

/-- The four framework tags whose assertion tables are non-trivial. -/
theorem assertionPatterns_nodup (fw : String)
    (h : fw ∈ ["gtest", "catch2", "doctest", "boost"]) :
    (assertionPatterns fw).Nodup := by
  simp only [List.mem_cons, List.not_mem_nil, or_false] at h
  rcases h with rfl | rfl | rfl | rfl <;> decide

/-- C10: `_extract_assertions` returns the table-order filter of the fixed
per-framework assertion table: a duplicate-free subsequence of the table,
bounded by the table's length, containing a pattern exactly when it occurs in
the joined body text, and never containing a name outside the table. -/
theorem c10_extract_assertions (body : List String) (fw : String)
    (h : fw ∈ ["gtest", "catch2", "doctest", "boost"]) :
    (extractAssertions body fw).Sublist (assertionPatterns fw) ∧
    (extractAssertions body fw).Nodup ∧
    (extractAssertions body fw).length ≤ (assertionPatterns fw).length ∧
    (∀ p, p ∈ extractAssertions body fw ↔
      (p ∈ assertionPatterns fw ∧ occursStr p (joinNL body) = true)) := by
  refine ⟨List.filter_sublist _, (assertionPatterns_nodup fw h).filter _,
    (List.filter_sublist _).length_le, ?_⟩
  intro p
  exact List.mem_filter

/-- Witness for C10 on a concrete gtest body. -/
theorem c10_extract_assertions_witness :
    ("gtest" ∈ ["gtest", "catch2", "doctest", "boost"]) ∧
    (extractAssertions ["EXPECT_EQ(1,1);"] "gtest").Sublist
      (assertionPatterns "gtest") ∧
    ("EXPECT_EQ" ∈ extractAssertions ["EXPECT_EQ(1,1);"] "gtest" ↔
      ("EXPECT_EQ" ∈ assertionPatterns "gtest" ∧
       occursStr "EXPECT_EQ" (joinNL ["EXPECT_EQ(1,1);"]) = true)) :=
  ⟨by decide,
   (c10_extract_assertions ["EXPECT_EQ(1,1);"] "gtest" (by decide)).1,
   (c10_extract_assertions ["EXPECT_EQ(1,1);"] "gtest" (by decide)).2.2.2
     "EXPECT_EQ"⟩

/-- Per-line brace balance contribution used by `_find_test_body`. -/
def braceDelta (l : String) : Int :=
  (countChar '\x7b' l : Int) - (countChar '\x7d' l : Int)

/-- Running brace balance over `ls[0..k]`. -/
def braceRun (ls : List String) (k : Nat) : Int :=
  ((ls.take (k + 1)).map braceDelta).sum

theorem findOpen_none_iff (ls : List String) :
    findOpen ls = none ↔ ∀ l ∈ ls, containsCharS '\x7b' l = false := by
  induction ls with
  | nil => simp [findOpen]
  | cons l rest ih =>
    simp only [findOpen]
    by_cases h : containsCharS '\x7b' l
    · simp [h]
    · simp only [Bool.not_eq_true] at h
      simp [h, ih]

theorem findOpen_some (ls : List String) (j : Nat) (h : findOpen ls = some j) :
    j < ls.length ∧ containsCharS '\x7b' (ls.getD j "") = true ∧
    ∀ k, k < j → containsCharS '\x7b' (ls.getD k "") = false := by
  induction ls generalizing j with
  | nil => simp [findOpen] at h
  | cons l rest ih =>
    simp only [findOpen] at h
    by_cases hc : containsCharS '\x7b' l
    · rw [if_pos hc] at h
      cases h
      exact ⟨Nat.succ_pos _, hc, fun k hk => absurd hk (Nat.not_lt_zero k)⟩
    · rw [if_neg hc] at h
      rcases Option.map_eq_some'.mp h with ⟨j₂, hj₂, rfl⟩
      rcases ih j₂ hj₂ with ⟨h₁, h₂, h₃⟩
      simp only [Bool.not_eq_true] at hc
      refine ⟨Nat.succ_lt_succ h₁, by simpa using h₂, ?_⟩
      intro k hk
      cases k with
      | zero => simpa using hc
      | succ k => simpa using h₃ k (Nat.lt_of_succ_lt_succ hk)

theorem findClose_some_lt (ls : List String) (cnt : Int) (k : Nat)
    (h : findClose ls cnt = some k) : k < ls.length := by
  induction ls generalizing cnt k with
  | nil => simp [findClose] at h
  | cons l rest ih =>
    simp only [findClose] at h
    by_cases hz : cnt + (countChar '\x7b' l : Int) - (countChar '\x7d' l : Int) = 0
    · rw [if_pos hz] at h
      cases h
      exact Nat.succ_pos _
    · rw [if_neg hz] at h
      rcases Option.map_eq_some'.mp h with ⟨k₂, hk₂, rfl⟩
      exact Nat.succ_lt_succ (ih _ _ hk₂)

theorem findClose_none_iff (ls : List String) (cnt : Int) :
    findClose ls cnt = none ↔ ∀ k, k < ls.length → cnt + braceRun ls k ≠ 0 := by
  induction ls generalizing cnt with
  | nil => simp [findClose]
  | cons l rest ih =>
    simp only [findClose]
    have hrun₀ : braceRun (l :: rest) 0 = braceDelta l := by
      simp [braceRun]
    have hrunS : ∀ k, braceRun (l :: rest) (k + 1) = braceDelta l + braceRun rest k := by
      intro k
      simp [braceRun]
    have hdel : ∀ c : Int,
        c + (countChar '\x7b' l : Int) - (countChar '\x7d' l : Int) =
        c + braceDelta l := by
      intro c
      unfold braceDelta
      ring
    by_cases hz : cnt + (countChar '\x7b' l : Int) - (countChar '\x7d' l : Int) = 0
    · rw [if_pos hz]
      simp only [reduceCtorEq, false_iff, not_forall]
      refine ⟨0, by simp, ?_⟩
      rw [hrun₀, ← hdel]
      simp [hz]
    · rw [if_neg hz]
      rw [hdel] at hz
      constructor
      · intro hnone k hk hzero
        cases k with
        | zero =>
          rw [hrun₀] at hzero
          exact hz hzero
        | succ k =>
          have h₂ : findClose rest (cnt + braceDelta l) = none := by
            rcases Option.map_eq_none'.mp hnone with h₂
            rw [← hdel]
            exact h₂
          rw [hrunS, ← Int.add_assoc] at hzero
          exact (ih (cnt + braceDelta l)).mp h₂ k (Nat.lt_of_succ_lt_succ hk) hzero
      · intro hall
        rw [Option.map_eq_none']
        rw [hdel]
        rw [ih (cnt + braceDelta l)]
        intro k hk
        have := hall (k + 1) (Nat.succ_lt_succ hk)
        rw [hrunS, ← Int.add_assoc] at this
        exact this

theorem getD_drop_idx (l : List String) (n k : Nat) :
    (l.drop n).getD k "" = l.getD (n + k) "" := by
  induction l generalizing n with
  | nil => simp
  | cons a rest ih =>
    cases n with
    | zero => simp
    | succ n =>
      simp only [List.drop_succ_cons]
      rw [ih n]
      simp [Nat.succ_add]

theorem getD_mem_of_lt (l : List String) (j : Nat) (h : j < l.length) :
    l.getD j "" ∈ l := by
  induction l generalizing j with
  | nil => simp at h
  | cons a rest ih =>
    cases j with
    | zero => simp
    | succ j =>
      simp only [List.getD_cons_succ]
      exact List.mem_cons_of_mem a (ih j (Nat.lt_of_succ_lt_succ h))

/-- C9: `_find_test_body` is total and stays in range.  For an in-range start
index: the result indices satisfy `start ≤ bs ≤ be ≤ len - 1`; with no `{` at
or after `start` the result is `(start, start)`; otherwise the first index is
the first line at or after `start` containing `{`; if the running brace count
never returns to zero by end of file the second index equals the first; and
`parse_test_case` still returns a `TestInfo` on such an unterminated body. -/
theorem c9_find_test_body (lines : List String) (start : Nat)
    (h : start < lines.length) :
    start ≤ (findTestBody lines start).1 ∧
    (findTestBody lines start).1 ≤ (findTestBody lines start).2 ∧
    (findTestBody lines start).2 ≤ lines.length - 1 ∧
    ((∀ l ∈ lines.drop start, containsCharS '\x7b' l = false) →
      findTestBody lines start = (start, start)) ∧
    ((∃ l ∈ lines.drop start, containsCharS '\x7b' l = true) →
      containsCharS '\x7b' (lines.getD (findTestBody lines start).1 "") = true ∧
      ∀ k, start ≤ k → k < (findTestBody lines start).1 →
        containsCharS '\x7b' (lines.getD k "") = false) ∧
    ((∀ k, k < lines.length - (findTestBody lines start).1 →
        braceRun (lines.drop (findTestBody lines start).1) k ≠ 0) →
      (findTestBody lines start).2 = (findTestBody lines start).1) ∧
    (parseTestCase ["TEST(Suite, Name) \x7b"] 0 "gtest").isSome = true := by
  unfold findTestBody
  cases hfo : findOpen (lines.drop start) with
  | none =>
    dsimp only
    refine ⟨Nat.le_refl _, Nat.le_refl _, by omega, fun _ => rfl, ?_, fun _ => rfl,
      by decide⟩
    rintro ⟨l, hl, hc⟩
    have := (findOpen_none_iff (lines.drop start)).mp hfo l hl
    rw [this] at hc
    cases hc
  | some j =>
    rcases findOpen_some (lines.drop start) j hfo with ⟨hj₁, hj₂, hj₃⟩
    rw [List.length_drop] at hj₁
    have hbs : start + j < lines.length := by omega
    cases hfc : findClose (lines.drop (start + j)) 0 with
    | some k =>
      dsimp only
      rw [hfc]
      dsimp only
      have hk := findClose_some_lt _ _ _ hfc
      rw [List.length_drop] at hk
      refine ⟨Nat.le_add_right _ _, Nat.le_add_right _ _, by omega, ?_, ?_, ?_,
        by decide⟩
      · intro hall
        have hmem : (lines.drop start).getD j "" ∈ lines.drop start :=
          getD_mem_of_lt _ j (by rw [List.length_drop]; omega)
        have := hall _ hmem
        rw [this] at hj₂
        cases hj₂
      · intro hex
        refine ⟨?_, ?_⟩
        · rw [← getD_drop_idx]
          exact hj₂
        · intro k₂ hk₂ hk₂'
          have h₃ := hj₃ (k₂ - start) (by omega)
          rw [getD_drop_idx] at h₃
          have : start + (k₂ - start) = k₂ := by omega
          rw [this] at h₃
          exact h₃
      · intro hnever
        exfalso
        have : findClose (lines.drop (start + j)) 0 = none := by
          rw [findClose_none_iff]
          intro k₂ hk₂
          rw [List.length_drop] at hk₂
          have := hnever k₂ hk₂
          omega
        rw [this] at hfc
        cases hfc
    | none =>
      dsimp only
      rw [hfc]
      dsimp only
      refine ⟨Nat.le_add_right _ _, Nat.le_refl _, by omega, ?_, ?_, fun _ => rfl,
        by decide⟩
      · intro hall
        have hmem : (lines.drop start).getD j "" ∈ lines.drop start :=
          getD_mem_of_lt _ j (by rw [List.length_drop]; omega)
        have := hall _ hmem
        rw [this] at hj₂
        cases hj₂
      · refine fun _ => ⟨?_, ?_⟩
        · rw [← getD_drop_idx]
          exact hj₂
        · intro k₂ hk₂ hk₂'
          have h₃ := hj₃ (k₂ - start) (by omega)
          rw [getD_drop_idx] at h₃
          have : start + (k₂ - start) = k₂ := by omega
          rw [this] at h₃
          exact h₃

/-- Witness for C9 at a concrete two-line input with an unterminated body. -/
theorem c9_find_test_body_witness :
    (0 < (["TEST(A, B)", "\x7b \x7b"] : List String).length) ∧
    0 ≤ (findTestBody ["TEST(A, B)", "\x7b \x7b"] 0).1 ∧
    (findTestBody ["TEST(A, B)", "\x7b \x7b"] 0).1 ≤
      (findTestBody ["TEST(A, B)", "\x7b \x7b"] 0).2 ∧
    (findTestBody ["TEST(A, B)", "\x7b \x7b"] 0).2 ≤
      (["TEST(A, B)", "\x7b \x7b"] : List String).length - 1 :=
  ⟨by decide,
   (c9_find_test_body ["TEST(A, B)", "\x7b \x7b"] 0 (by decide)).1,
   (c9_find_test_body ["TEST(A, B)", "\x7b \x7b"] 0 (by decide)).2.1,
   (c9_find_test_body ["TEST(A, B)", "\x7b \x7b"] 0 (by decide)).2.2.1⟩

theorem commentSkipLoop_eq_collectLoop (f : Nat) (lines : List String) :
    ∀ i out, commentSkipLoop f lines i out = commentCollectLoop f lines i out := by
  induction f with
  | zero => intro i out; rfl
  | succ f ih =>
    intro i out
    simp only [commentSkipLoop, commentCollectLoop]
    split
    · exact ih (i + 1) (out ++ [lines.getD i ""])
    · rfl

theorem collectLoop_acc (f : Nat) (lines : List String) :
    ∀ i acc, commentCollectLoop f lines i acc =
      (acc ++ (commentCollectLoop f lines i []).1,
       (commentCollectLoop f lines i []).2) := by
  induction f with
  | zero => intro i acc; simp [commentCollectLoop]
  | succ f ih =>
    intro i acc
    simp only [commentCollectLoop]
    split
    · rw [ih (i + 1) (acc ++ [lines.getD i ""]), ih (i + 1) ([] ++ [lines.getD i ""])]
      simp
    · simp

theorem commentSkipOut_eq_collect (lines : List String) (i : Nat)
    (out : List String) :
    commentSkipOut lines i out =
      (out ++ (commentCollect lines i).1, (commentCollect lines i).2) := by
  unfold commentSkipOut commentCollect
  rw [commentSkipLoop_eq_collectLoop, collectLoop_acc]
  dsimp only
  split <;> simp

theorem hdrLoop_enh_eq (f : Nat) :
    ∀ st lines i out lwd,
      hdrLoop true f st lines i out lwd = hdrLoop false f st lines i out lwd := by
  induction f with
  | zero => intro st lines i out lwd; rfl
  | succ f ih =>
    intro st lines i out lwd
    simp only [hdrLoop, Bool.not_true, Bool.not_false]
    split
    · split
      · exact ih ..
      · split
        · rw [commentSkipOut_eq_collect]
          simp only [if_true, if_false]
          exact ih ..
        · split
          · exact ih ..
          · split
            · exact ih ..
            · split
              · exact ih ..
              · split
                · exact ih ..
                · split
                  · exact ih ..
                  · exact ih ..
    · rfl

/-- C7: `parse_header` with `enhance_existing=True` produces exactly the same
output (and generator state) as with `enhance_existing=False` on every file:
the capture codepath emits the captured block verbatim, exactly as the skip
codepath does, and no other branch consults the flag. -/
theorem c7_enhance_mode_equal (st : GenState) (filename : String)
    (lines : List String) :
    parseHeaderFile true st filename lines =
      parseHeaderFile false st filename lines := by
  unfold parseHeaderFile parseHeaderLines
  rw [hdrLoop_enh_eq]
